import Mathlib

/-!
Shallow embedding of the img-cli pipeline (Go sources) for checking the
natural-language specification against the code.

Conventions of the embedding:
* Go strings are Lean `String`s; the `strings` package functions used by the
  sources are re-implemented below over `List Char` with structural recursion
  so that concrete evaluations go through the kernel. Go's Unicode-aware
  `strings.ToLower` is modelled by its ASCII restriction (every pattern the
  sources compare against is ASCII).
* `time.Time` values are Unix seconds (`Int`); `time.Duration` values are
  nanoseconds (`Int`). `float64` quantities (costs, request rates) are `ℚ`,
  with Go's float-to-int conversion modelled as truncation toward zero.
* The filesystem seen by the caches is a finite association list from path to
  file; a file is modelled by the result of parsing it as a `CacheEntry`
  (`some e` = parseable, `none` = present but unparseable).
* MD5 is an uninterpreted deterministic function supplied as a parameter:
  every property proved here holds for an arbitrary digest function.
-/

/-! ## Go string primitives (`strings` package, ASCII-faithful) -/

/-- ASCII case folding of one character (the restriction of Go's
`unicode.ToLower` used by `strings.ToLower` on ASCII input). -/
def asciiLowerChar (c : Char) : Char :=
  if 65 ≤ c.toNat ∧ c.toNat ≤ 90 then Char.ofNat (c.toNat + 32) else c

/-- `strings.ToLower` on a character list. -/
def lowerCL (l : List Char) : List Char := l.map asciiLowerChar

/-- `strings.HasPrefix` on character lists. -/
def isPrefixCL : List Char → List Char → Bool
  | [], _ => true
  | ph :: pt, c :: cs => ph = c && isPrefixCL pt cs
  | _ :: _, [] => false

/-- Whether `pat` occurs as a contiguous run inside the second list
(`strings.Contains`). -/
def isInfixCL (pat : List Char) : List Char → Bool
  | [] => isPrefixCL pat []
  | c :: cs => isPrefixCL pat (c :: cs) || isInfixCL pat cs

/-- `strings.Contains s sub`. -/
def strContains (s sub : String) : Bool := isInfixCL sub.toList s.toList

/-- `strings.ToLower`. -/
def goToLower (s : String) : String := (lowerCL s.toList).asString

/-- Splitting worker; the fuel argument makes the recursion structural. With
fuel `≥ length + 1` and a non-empty separator it computes `strings.Split`. -/
def splitOnFuel (sep : List Char) : Nat → List Char → List Char → List (List Char)
  | 0, _, acc => [acc.reverse]
  | _ + 1, [], acc => [acc.reverse]
  | n + 1, c :: cs, acc =>
    if isPrefixCL sep (c :: cs) then
      acc.reverse :: splitOnFuel sep n ((c :: cs).drop sep.length) []
    else
      splitOnFuel sep n cs (c :: acc)

/-- `strings.Split s sep` (for the non-empty separators the sources use). -/
def goSplit (s sep : String) : List String :=
  (splitOnFuel sep.toList (s.toList.length + 1) s.toList []).map List.asString

/-- `strings.Join parts sep`. -/
def goJoin (sep : String) : List String → String
  | [] => ""
  | [x] => x
  | x :: xs => x ++ sep ++ goJoin sep xs

/-- Replacement worker for `strings.ReplaceAll` (structural via fuel). -/
def replaceFuel (pat rep : List Char) : Nat → List Char → List Char
  | 0, l => l
  | _ + 1, [] => []
  | n + 1, c :: cs =>
    if isPrefixCL pat (c :: cs) then
      rep ++ replaceFuel pat rep n ((c :: cs).drop pat.length)
    else
      c :: replaceFuel pat rep n cs

/-- `strings.ReplaceAll s pat rep` (for the non-empty patterns the sources use). -/
def goReplaceAll (s pat rep : String) : String :=
  (replaceFuel pat.toList rep.toList (s.toList.length + 1) s.toList).asString

/-- `strings.HasSuffix`. -/
def goHasSuffix (s pat : String) : Bool :=
  isPrefixCL pat.toList.reverse s.toList.reverse

/-- `strings.TrimSuffix`. -/
def goTrimSuffix (s pat : String) : String :=
  if goHasSuffix s pat then (s.toList.take (s.toList.length - pat.toList.length)).asString
  else s

/-- `strings.Index` restricted to a boolean position test; `strings.Index s pat`
compared with `> 0`, i.e. "pat occurs and not at position 0". -/
def indexPosCL (pat : List Char) : List Char → Option Nat
  | [] => if isPrefixCL pat [] then some 0 else none
  | c :: cs =>
    if isPrefixCL pat (c :: cs) then some 0
    else match indexPosCL pat cs with
      | some n => some (n + 1)
      | none => none

/-- `strings.Index s pat` (character positions; the sources apply it to ASCII
data, where Go's byte positions coincide). `-1` when absent. -/
def goIndex (s pat : String) : Int :=
  match indexPosCL pat.toList s.toList with
  | some n => (n : Int)
  | none => -1

/-- `strings.TrimSpace` (ASCII whitespace). -/
def isSpaceChar (c : Char) : Bool := c = ' ' || c = '\t' || c = '\n' || c = '\r'

def goTrimSpace (s : String) : String :=
  ((s.toList.dropWhile isSpaceChar).reverse.dropWhile isSpaceChar).reverse.asString

/-- `filepath.Base` for the forward-slash paths the repository uses
(the last path component). -/
def baseName (p : String) : String := (goSplit p "/").getLastD p

/-! ## Content-addressed cache: `pkg/cache/cache.go` and `pkg/cache/optimized.go` -/

/-- `CacheEntry` (cache.go lines 21–28). `data` is the serialized analysis
payload, kept opaque; `timestamp` is Unix seconds. -/
structure CacheEntry where
  key : String
  entryType : String
  timestamp : Int
  filePath : String
  fileHash : String
  data : String
deriving DecidableEq

/-- The cache directory's files: association list from path to the result of
parsing the file as a `CacheEntry` (`some e` = parses, `none` = unparseable). -/
abbrev CacheFS : Type := List (String × Option CacheEntry)

/-- `os.ReadFile` + presence: `none` = no such file. -/
def fsRead : CacheFS → String → Option (Option CacheEntry)
  | [], _ => none
  | (q, v) :: rest, p => if q = p then some v else fsRead rest p

/-- `os.WriteFile` (create or replace). -/
def fsWrite (fs : CacheFS) (p : String) (v : Option CacheEntry) : CacheFS :=
  (p, v) :: (fs.filter fun e => !(e.1 = p))

/-- `os.Remove`. -/
def fsRemove (fs : CacheFS) (p : String) : CacheFS :=
  fs.filter fun e => !(e.1 = p)

/-- A `Cache` instance's fields (cache.go lines 16–19); `ttl` in seconds. -/
structure CacheConfig where
  cacheDir : String
  ttl : Int
deriving DecidableEq

/-- `Cache.generateKey` (cache.go lines 71–78): type plus the space-cleaned
base name of the path. Also `OptimizedCache.generateKey` (optimized.go 332–336). -/
def generateKey (analysisType filePath : String) : String :=
  analysisType ++ "_" ++ goReplaceAll (baseName filePath) " " "_"

/-- The cache file path `filepath.Join(cacheDir, key + ".json")`. -/
def cachePathOf (c : CacheConfig) (analysisType filePath : String) : String :=
  c.cacheDir ++ "/" ++ generateKey analysisType filePath ++ ".json"

/-- `Cache.Get` (cache.go lines 111–131): read the file, unmarshal, and return
the entry's data. The source deliberately performs no TTL check, no identity
recomputation and no removal ("Always use cached version if it exists"). -/
def cacheGet (fs : CacheFS) (c : CacheConfig) (analysisType filePath : String) :
    Option String :=
  match fsRead fs (cachePathOf c analysisType filePath) with
  | none => none
  | some none => none
  | some (some entry) => some entry.data

/-- A file's stat data and content; `content` is its byte stream. -/
structure GoFile where
  size : Int
  mtimeUnix : Int
  content : List Nat
deriving DecidableEq

/-- The input `Cache.getFileHash` (cache.go lines 80–109) feeds to MD5:
the raw byte stream for files of at most 10 MiB, the formatted
`size_<bytes>_mod_<mtime-unix>` string for larger files. -/
def cacheHashInput (f : GoFile) : List Nat ⊕ String :=
  if f.size > 10 * 1024 * 1024 then
    Sum.inr ("size_" ++ toString f.size ++ "_mod_" ++ toString f.mtimeUnix)
  else
    Sum.inl f.content

/-- `Cache.getFileHash` with the digest abstracted: MD5 is a deterministic
function of the hashed input. -/
def cacheGetFileHash (md5 : List Nat ⊕ String → String) (f : GoFile) : String :=
  md5 (cacheHashInput f)

/-- Go's `string(rune(n))` conversion: the character for a valid code point,
and `"�"` (the replacement character) for every other value. -/
def goRuneString (n : Int) : String :=
  if 0 ≤ n ∧ (n < 0xd800 ∨ (0xe000 ≤ n ∧ n ≤ 0x10ffff)) then
    String.mk [Char.ofNat n.toNat]
  else "�"

/-- The input `OptimizedCache.getFileHash` (optimized.go lines 339–368) feeds
to MD5. For large files the source builds the metadata string with
`string(rune(info.Size()))` and `string(rune(info.ModTime().Unix()))` —
code-point conversions, not decimal formatting. -/
def optimizedHashInput (f : GoFile) : List Nat ⊕ String :=
  if f.size > 10 * 1024 * 1024 then
    Sum.inr (goJoin "_" ["size", goRuneString f.size, "mod", goRuneString f.mtimeUnix])
  else
    Sum.inl f.content

/-- `OptimizedCache.getFileHash` with the digest abstracted. -/
def optimizedGetFileHash (md5 : List Nat ⊕ String → String) (f : GoFile) : String :=
  md5 (optimizedHashInput f)

/-- `Cache.Set` (cache.go lines 133–165). `now` models `time.Now`, `hashResult`
the outcome of `getFileHash` on the image file (`none` = error, stored as "").
Returns the filesystem after the call and the error (`none` = success).
Write-once: when the cache file already exists the call returns success
without touching the filesystem. -/
def cacheSet (fs : CacheFS) (c : CacheConfig) (analysisType filePath : String)
    (now : Int) (hashResult : Option String) (data : String) :
    CacheFS × Option String :=
  let cachePath := cachePathOf c analysisType filePath
  match fsRead fs cachePath with
  | some _ => (fs, none)
  | none =>
    let entry : CacheEntry :=
      { key := generateKey analysisType filePath
        entryType := analysisType
        timestamp := now
        filePath := filePath
        fileHash := hashResult.getD ""
        data := data }
    (fsWrite fs cachePath (some entry), none)

/-- An in-memory index entry (optimized.go lines 27–34; the `Size` field is
only read by `GetStats` and is not modelled). -/
structure IndexEntry where
  key : String
  entryType : String
  timestamp : Int
  filePath : String
  fileHash : String
deriving DecidableEq

/-- An `OptimizedCache`'s state: configuration, in-memory index, and the cache
directory's files. -/
structure OptCacheState where
  cacheDir : String
  ttl : Int
  index : List (String × IndexEntry)
  files : CacheFS
deriving DecidableEq

def idxRead : List (String × IndexEntry) → String → Option IndexEntry
  | [], _ => none
  | (q, v) :: rest, k => if q = k then some v else idxRead rest k

def idxWrite (idx : List (String × IndexEntry)) (k : String) (v : IndexEntry) :
    List (String × IndexEntry) :=
  (k, v) :: (idx.filter fun e => !(e.1 = k))

def idxRemove (idx : List (String × IndexEntry)) (k : String) :
    List (String × IndexEntry) :=
  idx.filter fun e => !(e.1 = k)

/-- `OptimizedCache.evict` (optimized.go lines 219–228): drop the index entry
and remove the cache file. -/
def optEvict (s : OptCacheState) (key : String) : OptCacheState :=
  { s with
    index := idxRemove s.index key
    files := fsRemove s.files (s.cacheDir ++ "/" ++ key ++ ".json") }

/-- `OptimizedCache.GetOutfitAnalysis` (optimized.go lines 115–159). `now` is
`time.Now` in Unix seconds, `curHash` the outcome of recomputing
`getFileHash` on `filePath` (`none` = error), and `parseData` models whether
`entry.Data` unmarshals into `models.OutfitAnalysis`. Returns the served data
(`none` = miss) with the state after any eviction. -/
def optGetOutfitAnalysis (s : OptCacheState) (filePath : String) (now : Int)
    (curHash : Option String) (parseData : String → Bool) :
    Option String × OptCacheState :=
  match idxRead s.index (generateKey "outfit" filePath) with
  | none => (none, s)
  | some ie =>
    if now - ie.timestamp > s.ttl then (none, optEvict s (generateKey "outfit" filePath))
    else
      match fsRead s.files (s.cacheDir ++ "/" ++ generateKey "outfit" filePath ++ ".json") with
      | none => (none, s)
      | some none => (none, s)
      | some (some entry) =>
        match curHash with
        | some h =>
          if h ≠ ie.fileHash then (none, optEvict s (generateKey "outfit" filePath))
          else if parseData entry.data then (some entry.data, s) else (none, s)
        | none => if parseData entry.data then (some entry.data, s) else (none, s)

/-- `OptimizedCache.Set` (optimized.go lines 371–407): marshal the entry,
update the index and write the file — with no existence check, so an existing
entry for the key is overwritten. -/
def optSet (s : OptCacheState) (analysisType filePath : String) (now : Int)
    (hashResult : Option String) (data : String) : OptCacheState :=
  let key := generateKey analysisType filePath
  let fileHash := hashResult.getD ""
  let entry : CacheEntry :=
    { key := key
      entryType := analysisType
      timestamp := now
      filePath := filePath
      fileHash := fileHash
      data := data }
  { s with
    index := idxWrite s.index key
      { key := key
        entryType := analysisType
        timestamp := now
        filePath := filePath
        fileHash := fileHash }
    files := fsWrite s.files (s.cacheDir ++ "/" ++ key ++ ".json") (some entry) }

/-! ## Token-bucket rate limiter: `pkg/client` (`RateLimiter`) -/

/-- Go's conversion of a nonnegative `float64` to `int` / `int64`: truncation
toward zero, modelled exactly on `ℚ`. -/
def ratTrunc (q : ℚ) : Int := q.num.tdiv q.den

/-- A `RateLimiter`'s numeric state (client source lines 36–42); `interval` in
nanoseconds. `lastRefill` is not stored: each `Wait` receives the elapsed time
since the last refill as a parameter. -/
structure RateLimiterState where
  tokens : Int
  maxTokens : Int
  interval : Int
deriving DecidableEq

/-- `NewRateLimiter` (client source lines 45–58): a non-positive rate falls
back to 10 requests per second; the bucket starts with one token and capacity
`int(requestsPerSecond)`. -/
def newRateLimiter (requestsPerSecond : ℚ) : RateLimiterState :=
  let rps := if requestsPerSecond ≤ 0 then 10 else requestsPerSecond
  { tokens := 1
    maxTokens := ratTrunc rps
    interval := ratTrunc (1000000000 / rps) }

/-- The refill step of `Wait` (client source lines 66–73): add
`elapsed / interval` tokens, capped at `maxTokens`, when at least one interval
has passed. -/
def rlRefill (s : RateLimiterState) (elapsed : Int) : Int :=
  if elapsed.tdiv s.interval > 0 then
    min s.maxTokens (s.tokens + elapsed.tdiv s.interval)
  else s.tokens

/-- `RateLimiter.Wait` (client source lines 61–91). `elapsed` is
`now - lastRefill` in nanoseconds; `cancelled` models the context being done
while blocked. Returns `none` for the cancellation error, otherwise the new
state together with the time slept (`interval` when the bucket was empty,
`0` otherwise). After a blocked wait the source sets `tokens = 1` and then
decrements it. -/
def rlWait (s : RateLimiterState) (elapsed : Int) (cancelled : Bool) :
    Option (RateLimiterState × Int) :=
  if rlRefill s elapsed ≤ 0 then
    if cancelled then none
    else some ({ s with tokens := 1 - 1 }, s.interval)
  else some ({ s with tokens := rlRefill s elapsed - 1 }, 0)

/-! ## Cost model and gates: `pkg/config/cost.go`, `pkg/workflow/types.go`,
and the modular sweep driver -/

/-- `CostConfig` (cost.go lines 10–19), amounts in dollars. -/
structure WorkflowCostConfig where
  costPerImage : ℚ
  confirmationThreshold : ℚ
  maximumCost : ℚ
deriving DecidableEq

/-- `DefaultCostConfig` without environment overrides (cost.go lines 26–45). -/
def defaultCostConfig : WorkflowCostConfig :=
  { costPerImage := 4 / 100
    confirmationThreshold := 5
    maximumCost := 50 }

/-- `CostConfig.CalculateTotalCost` (cost.go lines 48–50). -/
def calculateTotalCost (c : WorkflowCostConfig) (imageCount : Int) : ℚ :=
  (imageCount : ℚ) * c.costPerImage

/-- `CostConfig.RequiresConfirmation` (cost.go lines 53–55). -/
def requiresConfirmation (c : WorkflowCostConfig) (imageCount : Int) : Bool :=
  calculateTotalCost c imageCount > c.confirmationThreshold

/-- The outcome of `checkWorkflowCost`: success, the user declining the
confirmation prompt, or the hard-limit error. -/
inductive CostGateResult
  | proceed
  | cancelledByUser
  | exceedsMaximum
deriving DecidableEq

/-- `checkWorkflowCost` (types.go lines 59–97); `confirmed` models the user's
answer at the confirmation prompt. The hard-limit check runs after the
confirmation step and rejects any count whose cost exceeds `maximumCost`. -/
def checkWorkflowCost (cfg : WorkflowCostConfig) (imageCount : Int)
    (skipConfirm : Bool) (confirmed : Bool) : CostGateResult :=
  let totalCost := calculateTotalCost cfg imageCount
  if ¬skipConfirm ∧ requiresConfirmation cfg imageCount ∧ ¬confirmed then
    CostGateResult.cancelledByUser
  else if totalCost > cfg.maximumCost then CostGateResult.exceedsMaximum
  else CostGateResult.proceed

/-- The modular driver's estimate (modular workflow source line 82):
`float64(totalImages) * 0.04`. -/
def modularEstimatedCost (totalImages : Int) : ℚ := (totalImages : ℚ) * (4 / 100)

/-- The modular driver's only gate (modular workflow source lines 118–128):
ask for confirmation when the estimate exceeds $5 and `--no-confirm` is not
set; there is no maximum-cost check on this path. `true` = the run continues
into the generation loops. -/
def modularCostGateProceeds (estimatedCost : ℚ) (skipCostConfirm : Bool)
    (userResponseIsYes : Bool) : Bool :=
  if ¬skipCostConfirm ∧ estimatedCost > 5 then userResponseIsYes else true

/-! ## Sweep planner: the modular workflow's nested loops -/

/-- `maxInt` (modular workflow source lines 306–311). -/
def maxInt (a b : Int) : Int := if a > b then a else b

/-- `ensureAtLeastOne` (modular workflow source lines 298–303). -/
def ensureAtLeastOne (files : List String) : List String :=
  if files.length = 0 then [""] else files

/-- The per-slot reference lists the driver resolved, plus the variation
count (`options.Variations`, a Go `int`). -/
structure SweepLists where
  targetImages : List String
  outfitFiles : List String
  overOutfitFiles : List String
  styleFiles : List String
  hairStyleFiles : List String
  hairColorFiles : List String
  makeupFiles : List String
  expressionFiles : List String
  accessoriesFiles : List String
  variations : Int
deriving DecidableEq

/-- `totalImages` (modular workflow source lines 70–80): the count printed in
the pre-flight cost analysis and fed to the cost estimate. -/
def totalImages (c : SweepLists) : Int :=
  (c.targetImages.length : Int) *
    maxInt 1 c.outfitFiles.length *
    maxInt 1 c.overOutfitFiles.length *
    maxInt 1 c.styleFiles.length *
    maxInt 1 c.hairStyleFiles.length *
    maxInt 1 c.hairColorFiles.length *
    maxInt 1 c.makeupFiles.length *
    maxInt 1 c.expressionFiles.length *
    maxInt 1 c.accessoriesFiles.length *
    c.variations

/-- One planned generation entry: the slot values of one combination plus the
variation index. -/
structure PlanEntry where
  subject : String
  outfit : String
  overOutfit : String
  style : String
  hairStyle : String
  hairColor : String
  makeup : String
  expression : String
  accessories : String
  variation : Nat
deriving DecidableEq

/-- The generation entries the nested loops produce (modular workflow source
lines 141–220), in execution order; each `RunModularWorkflow` call contributes
one entry per variation, innermost (`for i := 0; i < config.Variations` in the
modular workflow). -/
def sweepPlan (c : SweepLists) : List PlanEntry :=
  c.targetImages.flatMap fun subject =>
    (ensureAtLeastOne c.outfitFiles).flatMap fun outfit =>
      (ensureAtLeastOne c.overOutfitFiles).flatMap fun overOutfit =>
        (ensureAtLeastOne c.styleFiles).flatMap fun style =>
          (ensureAtLeastOne c.hairStyleFiles).flatMap fun hairStyle =>
            (ensureAtLeastOne c.hairColorFiles).flatMap fun hairColor =>
              (ensureAtLeastOne c.makeupFiles).flatMap fun makeup =>
                (ensureAtLeastOne c.expressionFiles).flatMap fun expression =>
                  (ensureAtLeastOne c.accessoriesFiles).flatMap fun accessories =>
                    (List.range c.variations.toNat).map fun variation =>
                      { subject := subject
                        outfit := outfit
                        overOutfit := overOutfit
                        style := style
                        hairStyle := hairStyle
                        hairColor := hairColor
                        makeup := makeup
                        expression := expression
                        accessories := accessories
                        variation := variation }

/-- The enumeration the specification describes, written from its words:
"subjects outermost, then outfit, over-outfit, style, hair-style, hair-color,
makeup, expression, accessories, variation innermost", each unset slot a
single sentinel. Kept as a separate definition to compare with `sweepPlan`. -/
def specOrderedEnumeration (c : SweepLists) : List PlanEntry :=
  c.targetImages.flatMap fun subject =>
    (ensureAtLeastOne c.outfitFiles).flatMap fun outfit =>
      (ensureAtLeastOne c.overOutfitFiles).flatMap fun overOutfit =>
        (ensureAtLeastOne c.styleFiles).flatMap fun style =>
          (ensureAtLeastOne c.hairStyleFiles).flatMap fun hairStyle =>
            (ensureAtLeastOne c.hairColorFiles).flatMap fun hairColor =>
              (ensureAtLeastOne c.makeupFiles).flatMap fun makeup =>
                (ensureAtLeastOne c.expressionFiles).flatMap fun expression =>
                  (ensureAtLeastOne c.accessoriesFiles).flatMap fun accessories =>
                    (List.range c.variations.toNat).map fun variation =>
                      { subject := subject
                        outfit := outfit
                        overOutfit := overOutfit
                        style := style
                        hairStyle := hairStyle
                        hairColor := hairColor
                        makeup := makeup
                        expression := expression
                        accessories := accessories
                        variation := variation }

/-! ## Outfit analysis scrubbing: `pkg/analyzer/outfit.go`
(`filterWeaponReferences`, lines 298–432) -/

/-- A JSON value in the `clothing`/`accessories` arrays: a string, or a
non-string value (object), which the filter keeps verbatim. -/
inductive OutfitItem
  | str (s : String)
  | obj (raw : String)
deriving DecidableEq

/-- The `gemini.OutfitDescription` fields read by the filter. -/
structure OutfitDescription where
  clothing : List OutfitItem
  style : String
  colors : List String
  accessories : List OutfitItem
  overall : String
deriving DecidableEq

/-- Weapon-related vocabulary (outfit.go lines 301–306). -/
def weaponTerms : List String :=
  ["gun", "pistol", "rifle", "firearm", "weapon", "holster",
   "ammunition", "ammo", "bullet", "cartridge", "magazine",
   "revolver", "shotgun", "carbine", "assault", "tactical",
   "knife", "blade", "dagger", "sword", "machete"]

/-- Makeup and body-modification vocabulary (outfit.go lines 309–314). -/
def beautyTerms : List String :=
  ["makeup", "lipstick", "eyeshadow", "mascara", "foundation",
   "blush", "concealer", "eyeliner", "bronzer", "highlighter",
   "tattoo", "tattoos", "ink", "body art", "piercing",
   "nail polish", "nail art", "manicure", "pedicure"]

/-- Environmental/lighting vocabulary (outfit.go lines 317–322). -/
def environmentTerms : List String :=
  ["neon", "lighting", "backdrop", "background", "environment",
   "atmosphere", "moody", "dark room", "bright room", "urban",
   "street", "nightlife", "cyberpunk", "synthwave", "noir",
   "futuristic", "retro-futurism", "rave", "club"]

/-- `containsExcludedTerm` (outfit.go lines 325–346): the lowercased text
contains some term from the three vocabularies. -/
def containsExcludedTerm (s : String) : Bool :=
  let lower := goToLower s
  weaponTerms.any (fun term => strContains lower term) ||
  beautyTerms.any (fun term => strContains lower term) ||
  environmentTerms.any (fun term => strContains lower term)

/-- The clothing-item predicate (outfit.go lines 349–362): string items with
an excluded term are dropped, everything else is kept unchanged. -/
def keepClothingItem (item : OutfitItem) : Bool :=
  match item with
  | OutfitItem.str s => !containsExcludedTerm s
  | OutfitItem.obj _ => true

/-- The accessory predicate (outfit.go lines 365–380): items mentioning
"earring" are kept even when an excluded term occurs. -/
def keepAccessoryItem (item : OutfitItem) : Bool :=
  match item with
  | OutfitItem.str s => strContains (goToLower s) "earring" || !containsExcludedTerm s
  | OutfitItem.obj _ => true

/-- The color transformation (outfit.go lines 383–394): drop colors with an
excluded term; truncate a kept color at its parenthetical, when one occurs
past position 0. -/
def filterColors (colors : List String) : List String :=
  (colors.filter fun color => !containsExcludedTerm color).map fun color =>
    if goIndex color "(" > 0 then
      goTrimSpace ((color.toList.take (goIndex color "(").toNat).asString)
    else color

/-- The sentence filter applied to `Overall` and `Style` (outfit.go
lines 396–429): when the text contains an excluded term, drop the `". "`
sentences that contain one, re-join, trim a double period, and restore a
final period on a non-empty result. -/
def filterSentences (text : String) : String :=
  if containsExcludedTerm text then
    let sentences := goSplit text ". "
    let filtered := sentences.filter fun sentence => !containsExcludedTerm sentence
    let joined := goTrimSuffix (goJoin ". " filtered) ".."
    if !goHasSuffix joined "." ∧ joined ≠ "" then joined ++ "." else joined
  else text

/-- `OutfitAnalyzer.filterWeaponReferences` (outfit.go lines 298–432): the
only deterministic scrubbing the program applies to an outfit analysis. -/
def filterWeaponReferences (o : OutfitDescription) : OutfitDescription :=
  { clothing := o.clothing.filter keepClothingItem
    style := filterSentences o.style
    colors := filterColors o.colors
    accessories := o.accessories.filter keepAccessoryItem
    overall := filterSentences o.overall }

/-! ## Expression extraction: `pkg/workflow/extractors.go`
(`extractExpressionDescription`, lines 230–309) -/

/-- The `gaze` object of an expression analysis (only `direction` is read). -/
structure GazeData where
  direction : Option String
deriving DecidableEq

/-- The `facial_features` object (only `eyes` and `mouth` are read). -/
structure FacialFeatures where
  eyes : Option String
  mouth : Option String
deriving DecidableEq

/-- The fields of an expression analysis the extractor reads. `some s` models
the JSON field being present with string value `s` (possibly empty); `none`
models an absent or non-string field. The cached-entry unwrapping
(`data.analysis` / `analysis` nesting, lines 239–252) selects this record. -/
structure ExprAnalysis where
  primaryEmotion : Option String
  intensity : Option String
  facialFeatures : Option FacialFeatures
  gaze : Option GazeData
  mood : Option String
  overall : Option String
deriving DecidableEq

/-- The fixed gaze-phrase scrub applied to `overall` when gaze is excluded
(extractors.go lines 291–299), in source order. -/
def stripGazePhrases (overall : String) : String :=
  let s := overall
  let s := goReplaceAll s ", with the gaze directly engaging the viewer in this moment of astonishment" ""
  let s := goReplaceAll s ", with the gaze directly engaging the viewer" ""
  let s := goReplaceAll s " with the gaze directly engaging the viewer" ""
  let s := goReplaceAll s ", gazing directly at the camera" ""
  let s := goReplaceAll s " gazing directly at the camera" ""
  let s := goReplaceAll s ", looking directly at the viewer" ""
  let s := goReplaceAll s " looking directly at the viewer" ""
  let s := goReplaceAll s ", eyes locked on the camera" ""
  let s := goReplaceAll s " eyes locked on the camera" ""
  s

/-- One labelled part: emitted when the field is present and non-empty. -/
def labelledPart (label : String) (v : Option String) : List String :=
  match v with
  | some s => if s ≠ "" then [label ++ s] else []
  | none => []

/-- The `parts` list `extractExpressionDescription` accumulates
(extractors.go lines 254–302), in source order: emotion, intensity, eyes,
mouth, the gaze direction (only when gaze is not excluded), mood, and the
(possibly scrubbed) overall text. -/
def extractExpressionParts (a : ExprAnalysis) (shouldExcludeGaze : Bool) :
    List String :=
  labelledPart "Primary emotion: " a.primaryEmotion ++
  labelledPart "Intensity: " a.intensity ++
  (match a.facialFeatures with
   | some f => labelledPart "Eyes: " f.eyes ++ labelledPart "Mouth: " f.mouth
   | none => []) ++
  (if shouldExcludeGaze then []
   else match a.gaze with
     | some g => labelledPart "Gaze: " g.direction
     | none => []) ++
  labelledPart "Mood: " a.mood ++
  (match a.overall with
   | some s =>
     if s ≠ "" then [if shouldExcludeGaze then stripGazePhrases s else s] else []
   | none => [])

/-- `extractExpressionDescription` (extractors.go lines 230–309). -/
def extractExpressionDescription (a : ExprAnalysis) (excludeGaze : Bool) : String :=
  let parts := extractExpressionParts a excludeGaze
  if parts.length > 0 then goJoin ". " parts else "Natural expression"

/-! ## Modular components and the composed directive
(modular workflow source: `analyzeModularComponents` and `buildModularPrompt`) -/

/-- `models.ComponentData` (the fields the prompt builder reads). -/
structure ComponentData where
  dataType : String
  description : String
deriving DecidableEq

/-- `models.ModularComponents`: one optional component per slot. -/
structure ModularComponents where
  outfit : Option ComponentData
  overOutfit : Option ComponentData
  style : Option ComponentData
  hairStyle : Option ComponentData
  hairColor : Option ComponentData
  makeup : Option ComponentData
  expression : Option ComponentData
  accessories : Option ComponentData
deriving DecidableEq

/-- A `ModularComponents` value with every slot empty, the base the
composition theorems instantiate. -/
def emptyComponents : ModularComponents :=
  { outfit := none, overOutfit := none, style := none, hairStyle := none
    hairColor := none, makeup := none, expression := none, accessories := none }

/-- The outfit-slot decision of `analyzeModularComponents` when an over-outfit
is present (modular workflow source lines 193–212): the slot carries the
outer-layer extraction of the outfit analysis, or is left unset when the
extraction came back empty. `outerLayerDesc` is the result of
`o.extractOuterLayerOnly(data)`. -/
def composeOutfitSlot (outerLayerDesc : String) : Option ComponentData :=
  if outerLayerDesc = "" then none
  else some { dataType := "outfit", description := outerLayerDesc }

/-- The gaze-exclusion flag `analyzeModularComponents` passes for the
expression slot (modular workflow source line 398): exclude gaze exactly when
a style reference is set. -/
def expressionComponentOf (a : ExprAnalysis) (styleRefSet : Bool) : ComponentData :=
  { dataType := "expression"
    description := extractExpressionDescription a styleRefSet }

/-- The POV test (modular workflow source lines 487–491): the style
description, lowercased, contains one of the four first-person markers. -/
def isPOVStyle (m : ModularComponents) : Bool :=
  match m.style with
  | none => false
  | some st =>
    strContains (goToLower st.description) "first-person" ||
    strContains (goToLower st.description) "first person" ||
    strContains (goToLower st.description) "pov" ||
    strContains (goToLower st.description) "extreme close-up on the subject's hands"
def identityPreambleParts : List String :=
  ["ðŸ”´ CRITICAL IDENTITY INSTRUCTION:",
   "The person in the generated image MUST be the EXACT SAME INDIVIDUAL from the source portrait.",
   "This is not about creating someone similar - it must be THEM, recognizable as the same person.",
   "Preserve their exact facial features, bone structure, and identity throughout.",
   ""]

def povFramingLines : List String :=
  ["ðŸš¨ THIS IS A FIRST-PERSON POV SHOT - CRITICAL INSTRUCTIONS ðŸš¨",
   "",
   "ðŸ”´ IDENTITY PRESERVATION: This is the SAME PERSON from the provided portrait.",
   "Any visible reflections MUST show their EXACT facial features.",
   "",
   "1. FRAMING: Create a FIRST-PERSON PERSPECTIVE exactly as shown in the style image",
   "2. The camera IS the subject's eyes - shoot FROM their viewpoint, not AT them",
   "3. COPY THE EXACT FRAMING from the style image",
   "",
   "IMPORTANT: The person in the reference image IS the subject, but shown from THEIR OWN perspective:",
   "- Their hands/arms in frame = the subject's own hands reaching forward",
   "- If there's a mirror = show the subject's EXACT face/features reflected in it",
   "- Preserve their facial features, hair, skin tone, and identity completely",
   "- Apply their outfit to whatever body parts are visible in the POV framing",
   ""]

def styledFramingLines : List String :=
  ["âš ï¸ CRITICAL INSTRUCTION: Generate an image of THIS EXACT PERSON with the framing described below.",
   "The subject's facial features and identity MUST be preserved exactly.",
   "DO NOT create a portrait or full-body shot unless the style explicitly describes one.",
   "The provided person is not just for reference - they ARE the subject.",
   "If the style shows only legs, show ONLY legs (but they're still this person's legs).",
   "If only arms, show ONLY arms (but they're still this person's arms).",
   "",
   "The style description below controls framing, but this remains the SAME PERSON."]

def defaultFramingLine : String :=
  "Generate a professional 9:16 portrait photograph with the following specifications:"

def layeredImportantLine : String :=
  "IMPORTANT: The base outfit should be complete (shirt, pants/skirt, etc.), with the outer layer (jacket/coat) worn over it. Parts of the base outfit should be visible where the outer layer is open or doesn't cover (e.g., shirt collar, sleeves, pants/skirt)."

def hairPreserveUpfrontLines : List String :=
  ["âš ï¸ CRITICAL HAIR COLOR PRESERVATION âš ï¸",
   "DO NOT CHANGE THE SUBJECT'S HAIR COLOR! The subject's original hair color from the source portrait MUST be preserved EXACTLY.",
   "If the subject has blonde hair, they MUST still have blonde hair in the result.",
   "If the subject has red hair, they MUST still have red hair in the result.",
   "If the subject has black hair, they MUST still have black hair in the result.",
   ""]

def hairStyleHeaderLine : String :=
  "HAIR STYLE (STRUCTURE/CUT/SHAPE ONLY - NOT COLOR):"

def hairReminderLines : List String :=
  ["",
   "REMINDER: Apply ONLY the hairstyle structure, cut, shape, and styling from the description above.",
   "DO NOT change the hair color - keep the subject's ORIGINAL hair color from the source image.",
   "The hair style description is about the CUT and STYLE only, not the color."]

def makeupCriticalLine : String :=
  "CRITICAL: Apply makeup as a SURFACE LAYER ONLY. Do NOT alter facial bone structure, face shape, eye shape, nose shape, lip shape, or any anatomical features. Makeup should only add color, shading, and highlights to the existing facial features without changing their underlying structure or proportions."

def expressionHeaderLine : String :=
  "FACIAL EXPRESSION (EMOTION ONLY - NOT GAZE DIRECTION):"

def expressionStyleNoteLine : String :=
  "IMPORTANT: The PHOTOGRAPHIC STYLE section below controls where the subject looks and camera angle. Apply only the emotional expression from above, not any gaze direction."

/-- The 50-character `=` separator row of the style block (source lines
612/618/653), built programmatically. -/
def styleSepLine : String := (List.replicate 50 '=').asString

def povStyleHeaderLine : String :=
  "ðŸš¨ FIRST-PERSON POV STYLE - CRITICAL INSTRUCTIONS ðŸš¨"

def photoStyleHeaderLine : String :=
  "ðŸš¨ PHOTOGRAPHIC STYLE - THIS IS YOUR PRIMARY INSTRUCTION ðŸš¨"

def povShotWarnLines : List String :=
  ["âš ï¸ THIS IS A FIRST-PERSON POV SHOT âš ï¸",
   "You MUST create the image from the subject's own perspective looking down/forward",
   "NOT a third-person view of the subject!",
   ""]

def povReqLines : List String :=
  ["1. This is POV - shoot FROM the subject's eyes, not AT them",
   "2. Hands/arms in foreground = the subject's OWN hands (match their skin tone)",
   "3. Mirror reflection = the subject's EXACT face (preserve all facial features)",
   "4. The subject's identity must be clearly recognizable in any reflections",
   "5. Match the subject's: facial structure, eye color, hair color/style, skin tone",
   "6. Apply outfit details to visible body parts in the POV framing"]

def nonPovReqLines : List String :=
  ["1. Match the framing EXACTLY as described above",
   "2. If it says 'only arms visible' - show ONLY arms, NOT the full person",
   "3. If it says 'legs only' - show ONLY legs, NOT the full person",
   "4. If it says 'person in background' - keep them in background, NOT as main subject",
   "5. The person/subject image provided earlier is ONLY for outfit/appearance details",
   "6. DO NOT create a portrait unless the style explicitly describes a portrait"]

def thinkAsLines : List String :=
  ["",
   "THINK OF THIS AS: Taking the outfit/appearance from the person image and applying it to",
   "the EXACT framing/composition/perspective described in the style above.",
   ""] ++ [styleSepLine, ""]

def techPovIdentityLines : List String :=
  ["- ðŸ”´ CRITICAL: This is the SAME PERSON from the source portrait",
   "- Mirror reflections must show their EXACT face (same eyes, nose, mouth, bone structure)",
   "- This person must be immediately recognizable as the individual from the reference",
   "- Visible hands/arms must match the subject's skin tone and body type",
   "- Maintain the subject's exact hair color, style, and facial structure"]

def techStyleIdentityLines : List String :=
  ["- ðŸ”´ CRITICAL: This must be the EXACT SAME PERSON from the source portrait",
   "- If face is visible, it must show their IDENTICAL facial features (not similar, IDENTICAL)",
   "- Their identity must be unmistakably preserved - same eyes, nose, mouth, face shape",
   "- Apply the clothing to THIS specific person, not a generic model"]

def techDefaultIdentityLines : List String :=
  ["- ðŸ”´ CRITICAL: Preserve the EXACT identity of the person from the source portrait",
   "- This must be recognizably the SAME individual, not someone who looks similar",
   "- Keep their exact facial features: eyes, nose, mouth, face shape, bone structure"]

def makeupPreserveLine : String :=
  "- PRESERVE facial bone structure, face shape, and all anatomical features - makeup is cosmetic only"

def hairColorPreserveLines : List String :=
  ["- âš ï¸ CRITICAL: PRESERVE the subject's ORIGINAL HAIR COLOR exactly as shown in the source portrait",
   "- The subject's hair color MUST NOT change - if they have blonde hair, keep it blonde",
   "- Apply ONLY the hair CUT/STYLE/SHAPE, NOT the color"]

def techTailLines : List String :=
  ["- Professional 9:16 vertical portrait format",
   "- Waist-up framing showing outfit details",
   "- Natural, professional pose",
   "- High quality, detailed rendering",
   "",
   "IMPORTANT: Each component specified above should be applied independently without influencing other components."]

def facialPreservationLines : List String :=
  ["",
   "FACIAL STRUCTURE PRESERVATION:",
   "The subject's facial anatomy, bone structure, and features must remain EXACTLY as in the original portrait.",
   "Makeup is ONLY a cosmetic surface application - like painting on skin.",
   "Do NOT reshape eyes, nose, lips, jawline, or any facial features."]

/-- The framing preamble (modular workflow source lines 495–523): the POV
block, the style-driven block, or the default 9:16 line, plus the common
blank line. -/
def framingSection (m : ModularComponents) : List String :=
  (if isPOVStyle m then povFramingLines
   else if m.style.isSome then styledFramingLines
   else [defaultFramingLine]) ++ [""]

/-- The outfit block (modular workflow source lines 525–548). -/
def outfitSection (m : ModularComponents) : List String :=
  match m.outfit, m.overOutfit with
  | some o, some v =>
    ["LAYERED OUTFIT:",
     "",
     "COMPLETE BASE OUTFIT (all clothing worn underneath):",
     v.description,
     "",
     "OUTER LAYER ONLY (jacket/coat worn over the base outfit):",
     o.description,
     "",
     layeredImportantLine,
     ""]
  | some o, none => ["OUTFIT:", o.description, ""]
  | none, some v => ["OUTFIT:", v.description, ""]
  | none, none => []

/-- The hair-style block (modular workflow source lines 550–573). -/
def hairStyleSection (m : ModularComponents) : List String :=
  match m.hairStyle with
  | none => []
  | some h =>
    (if m.hairColor.isNone then hairPreserveUpfrontLines else []) ++
    [hairStyleHeaderLine, h.description] ++
    (if m.hairColor.isNone then hairReminderLines else []) ++
    [""]

/-- The hair-color block (modular workflow source lines 575–580). -/
def hairColorSection (m : ModularComponents) : List String :=
  match m.hairColor with
  | none => []
  | some h => ["HAIR COLOR:", h.description, ""]

/-- The makeup block (modular workflow source lines 582–588). -/
def makeupSection (m : ModularComponents) : List String :=
  match m.makeup with
  | none => []
  | some mk => ["MAKEUP (COSMETIC APPLICATION ONLY):", mk.description, makeupCriticalLine, ""]

/-- The expression block (modular workflow source lines 590–598). -/
def expressionSection (m : ModularComponents) : List String :=
  match m.expression with
  | none => []
  | some e =>
    [expressionHeaderLine, e.description] ++
    (if m.style.isSome then [expressionStyleNoteLine] else []) ++
    [""]

/-- The accessories block (modular workflow source lines 600–605). -/
def accessoriesSection (m : ModularComponents) : List String :=
  match m.accessories with
  | none => []
  | some a => ["ACCESSORIES:", a.description, ""]

/-- The style block, emitted last before the technical requirements
(modular workflow source lines 607–655). -/
def styleSection (m : ModularComponents) : List String :=
  match m.style with
  | none => []
  | some st =>
    ["", styleSepLine,
     if isPOVStyle m then povStyleHeaderLine else photoStyleHeaderLine,
     styleSepLine, ""] ++
    (if isPOVStyle m then povShotWarnLines else []) ++
    ["RECREATE THIS EXACT COMPOSITION:", st.description, "",
     "ABSOLUTE REQUIREMENTS:"] ++
    (if isPOVStyle m then povReqLines else nonPovReqLines) ++
    thinkAsLines

/-- The technical-requirements block (modular workflow source lines 657–699):
a branch-dependent identity sub-block, the makeup cosmetic-only reminder when
makeup is set, the hair-color-preservation reminder when hair-style is set
without hair-color, the fixed tail (9:16 format, waist-up framing, pose,
quality, independence note), and the facial-structure postscript when makeup
is set. -/
def techSection (m : ModularComponents) : List String :=
  ["TECHNICAL REQUIREMENTS:"] ++
  (if isPOVStyle m then techPovIdentityLines
   else if m.style.isSome then techStyleIdentityLines
   else techDefaultIdentityLines) ++
  (if m.makeup.isSome then [makeupPreserveLine] else []) ++
  (if m.hairStyle.isSome ∧ m.hairColor.isNone then hairColorPreserveLines else []) ++
  techTailLines ++
  (if m.makeup.isSome then facialPreservationLines else [])

/-- `buildModularPrompt`'s `parts` list (modular workflow source
lines 476–699), in append order. -/
def buildModularPromptParts (m : ModularComponents) : List String :=
  identityPreambleParts ++
  framingSection m ++
  outfitSection m ++
  hairStyleSection m ++
  hairColorSection m ++
  makeupSection m ++
  expressionSection m ++
  accessoriesSection m ++
  styleSection m ++
  techSection m

/-- `buildModularPrompt` (modular workflow source line 701):
`strings.Join(parts, "\n")`. -/
def buildModularPrompt (m : ModularComponents) : String :=
  goJoin "\n" (buildModularPromptParts m)

/-! ## Helper lemmas -/

theorem isPrefixCL_append_of_le (p l m : List Char) (h : p.length ≤ l.length) :
    isPrefixCL p (l ++ m) = isPrefixCL p l := by
  induction p generalizing l with
  | nil => simp [isPrefixCL]
  | cons a as ih =>
    cases l with
    | nil => simp at h
    | cons b bs =>
      simp only [List.cons_append, isPrefixCL, List.append_eq]
      rw [ih bs (by simpa using h)]

theorem toList_append (x y : String) : (x ++ y).toList = x.toList ++ y.toList := by
  cases x; cases y; rfl

theorem length_flatMap_const {α β : Type} (l : List α) (f : α → List β) (n : Nat)
    (h : ∀ a, (f a).length = n) : (l.flatMap f).length = l.length * n := by
  induction l with
  | nil => simp
  | cons a as ih => simp [List.flatMap_cons, ih, h, Nat.succ_mul, Nat.add_comm]

theorem ensureAtLeastOne_length (l : List String) :
    ((ensureAtLeastOne l).length : Int) = maxInt 1 l.length := by
  unfold ensureAtLeastOne maxInt
  rcases l with _ | ⟨x, xs⟩ <;> simp <;> omega

/-! ## C10 — token-bucket rate limiter -/

/-- C10. The token-bucket rate limiter preserves `0 ≤ tokens ≤ maxTokens`
across every `Wait` call that returns; a successful `Wait` consumes exactly
one token from the refilled balance, sleeping one refill interval exactly when
the refilled bucket is empty (the source then sets the balance to one token
and consumes it); cancellation is observed only while blocked on an empty
bucket; and a limiter constructed with `requestsPerSecond ≤ 0` falls back to
10 requests per second (capacity 10, interval 100 ms). -/
theorem rate_limiter_wait_spec :
    (∀ (s : RateLimiterState) (elapsed : Int) (cancelled : Bool)
      (s' : RateLimiterState) (w : Int),
      0 ≤ s.maxTokens → 0 ≤ s.tokens → s.tokens ≤ s.maxTokens →
      rlWait s elapsed cancelled = some (s', w) →
      (0 ≤ s'.tokens ∧ s'.tokens ≤ s.maxTokens ∧
       s'.maxTokens = s.maxTokens ∧ s'.interval = s.interval ∧
       (0 < rlRefill s elapsed → s'.tokens = rlRefill s elapsed - 1 ∧ w = 0) ∧
       (rlRefill s elapsed ≤ 0 → s'.tokens = 0 ∧ w = s.interval))) ∧
    (∀ (s : RateLimiterState) (elapsed : Int),
      rlWait s elapsed true = none ↔ rlRefill s elapsed ≤ 0) ∧
    (∀ rps : ℚ, rps ≤ 0 → newRateLimiter rps = newRateLimiter 10) ∧
    (newRateLimiter 10 =
      { tokens := 1, maxTokens := 10, interval := 100000000 }) := by
  refine ⟨?_, ?_, ?_, ?_⟩
  · intro s elapsed cancelled s' w hmax h0 hle hw
    have hupper : rlRefill s elapsed ≤ s.maxTokens := by
      by_cases h : elapsed.tdiv s.interval > 0
      · simp only [rlRefill, if_pos h]
        exact min_le_left _ _
      · simp only [rlRefill, if_neg h]
        exact hle
    have hlower : 0 ≤ rlRefill s elapsed := by
      by_cases h : elapsed.tdiv s.interval > 0
      · simp only [rlRefill, if_pos h]
        exact le_min hmax (by omega)
      · simp only [rlRefill, if_neg h]
        exact h0
    unfold rlWait at hw
    split at hw
    · rename_i ht
      split at hw
      · exact absurd hw (by simp)
      · injection hw with hw
        have hs' : s' = { s with tokens := 1 - 1 } := (Prod.ext_iff.mp hw.symm).1
        have hwv : w = s.interval := (Prod.ext_iff.mp hw.symm).2
        subst hs' hwv
        refine ⟨by simp, by simpa using hmax, rfl, rfl, fun hpos => absurd hpos (by omega),
          fun _ => ⟨by simp, rfl⟩⟩
    · rename_i ht
      push_neg at ht
      injection hw with hw
      have hs' : s' = { s with tokens := rlRefill s elapsed - 1 } := (Prod.ext_iff.mp hw.symm).1
      have hwv : w = 0 := (Prod.ext_iff.mp hw.symm).2
      subst hs' hwv
      exact ⟨by simp; omega, by simp; omega, rfl, rfl, fun _ => ⟨rfl, rfl⟩,
        fun h => absurd h (by omega)⟩
  · intro s elapsed
    unfold rlWait
    constructor
    · intro h
      by_contra hc
      push_neg at hc
      rw [if_neg (by omega)] at h
      exact absurd h (by simp)
    · intro h
      simp [if_pos h]
  · intro rps h
    unfold newRateLimiter
    rw [if_pos h, if_neg (by norm_num)]
  · have h10 : ratTrunc 10 = 10 := by decide
    have hint : ratTrunc (1000000000 / 10) = 100000000 := by
      norm_num [ratTrunc]
    unfold newRateLimiter
    rw [if_neg (by norm_num)]
    simp [h10, hint]

/-- Closed instantiation of `rate_limiter_wait_spec`: a limiter with capacity
2 holding one token satisfies the invariant hypotheses, and its `Wait` with no
elapsed time succeeds immediately, ending with zero tokens and no sleep. -/
theorem rate_limiter_wait_spec_witness :
    0 ≤ (⟨1, 2, 500000000⟩ : RateLimiterState).tokens ∧
    0 ≤ ((⟨0, 2, 500000000⟩, (0 : Int)) :
      RateLimiterState × Int).1.tokens := by
  refine ⟨by decide, ?_⟩
  exact (rate_limiter_wait_spec.1 ⟨1, 2, 500000000⟩ 0 false ⟨0, 2, 500000000⟩ 0
    (by decide) (by decide) (by decide) (by decide)).1

/-! ## C5 — cost gate -/

/-- C5 counterexample. A modular-path plan of 10000 entries costs $400 — far
above the default $50 maximum — yet with `--no-confirm` the modular driver's
gate proceeds straight to the generation loops: the cited path has no
maximum-cost check, so the claimed fail-fast does not happen. -/
theorem modular_cost_gate_no_max_cex :
    modularCostGateProceeds (modularEstimatedCost 10000) true false = true ∧
    modularEstimatedCost 10000 > defaultCostConfig.maximumCost := by
  constructor
  · rfl
  · norm_num [modularEstimatedCost, defaultCostConfig]

/-- C5 amended. The maximum-cost fail-fast holds on the standard outfit-swap
path: `checkWorkflowCost` — called before any generation — never returns
success for a count whose cost exceeds the configured maximum. The modular
path's gate, by contrast, never consults the maximum: it proceeds for every
cost whenever confirmation is skipped or the user confirms (and silently for
costs of at most $5). -/
theorem cost_gate_amended :
    (∀ (cfg : WorkflowCostConfig) (imageCount : Int) (skipConfirm confirmed : Bool),
      calculateTotalCost cfg imageCount > cfg.maximumCost →
      checkWorkflowCost cfg imageCount skipConfirm confirmed ≠ CostGateResult.proceed) ∧
    (∀ (n : Int) (yes : Bool),
      modularCostGateProceeds (modularEstimatedCost n) true yes = true) ∧
    (∀ n : Int,
      modularCostGateProceeds (modularEstimatedCost n) false true = true) := by
  refine ⟨?_, ?_, ?_⟩
  · intro cfg imageCount skipConfirm confirmed hcost
    unfold checkWorkflowCost
    split
    · simp
    · rw [if_pos hcost]
      simp
  · intro n yes
    unfold modularCostGateProceeds
    rw [if_neg (by simp)]
  · intro n
    unfold modularCostGateProceeds
    split <;> rfl

/-- Closed instantiation of `cost_gate_amended`: a 10000-image plan costs more
than the $50 maximum, and the standard path's gate rejects it. -/
theorem cost_gate_amended_witness :
    checkWorkflowCost defaultCostConfig 10000 true true ≠ CostGateResult.proceed :=
  cost_gate_amended.1 defaultCostConfig 10000 true true
    (by norm_num [calculateTotalCost, defaultCostConfig])

/-! ## C8 — outfit material-language normalization -/

/-- C8 counterexample. A clothing item reading "fitted jacket in faux leather"
passes the program's only deterministic outfit scrub unchanged: no code
replaces "faux leather" by "leather", so the stored record keeps the "faux"
qualifier (the replacement is requested only in the analyzer prompt text). -/
theorem outfit_scrub_keeps_faux_cex :
    filterWeaponReferences
      { clothing := [OutfitItem.str "fitted jacket in faux leather"]
        style := ""
        colors := []
        accessories := []
        overall := "" } =
      { clothing := [OutfitItem.str "fitted jacket in faux leather"]
        style := ""
        colors := []
        accessories := []
        overall := "" } ∧
    strContains "fitted jacket in faux leather" "faux leather" = true ∧
    [OutfitItem.str "fitted jacket in faux leather"] ≠
      [OutfitItem.str "fitted jacket in leather"] := by
  refine ⟨by decide, by decide, by decide⟩

/-- C8 amended. The deterministic outfit scrubbing (`filterWeaponReferences`)
only drops whole clothing and accessory items that match the
weapon/beauty/environment vocabularies; every kept item is carried over
verbatim (a sublist of the input), so no "faux X" / "vegan X" /
"synthetic X" occurrence is ever rewritten to "X" by the program — the
material-language rule lives only in the analyzer prompts. -/
theorem outfit_scrub_no_material_rewrite (o : OutfitDescription) :
    ((filterWeaponReferences o).clothing.Sublist o.clothing) ∧
    ((filterWeaponReferences o).accessories.Sublist o.accessories) ∧
    (filterWeaponReferences o).clothing =
      o.clothing.filter keepClothingItem ∧
    (filterWeaponReferences o).accessories =
      o.accessories.filter keepAccessoryItem := by
  refine ⟨?_, ?_, rfl, rfl⟩
  · exact List.filter_sublist _
  · exact List.filter_sublist _

/-! ## C3 — write-once cache Set -/

theorem fsRead_fsWrite_self (fs : CacheFS) (p : String) (v : Option CacheEntry) :
    fsRead (fsWrite fs p v) p = some v := by
  simp [fsRead, fsWrite]

/-- C3 counterexample. `OptimizedCache.Set` is not write-once: on a state
whose cache file for key `outfit_a.png` already holds an entry with data
"OLD", `Set` replaces the file with the freshly-built entry ("NEW"), so the
existing (possibly hand-edited) file is modified and the last writer wins. -/
theorem optimizedSet_overwrites_cex :
    fsRead (optSet
      { cacheDir := "outfits/.cache"
        ttl := 604800
        index := [("outfit_a.png",
          { key := "outfit_a.png", entryType := "outfit", timestamp := 0
            filePath := "a.png", fileHash := "h1" })]
        files := [("outfits/.cache/outfit_a.png.json",
          some { key := "outfit_a.png", entryType := "outfit", timestamp := 0
                 filePath := "a.png", fileHash := "h1", data := "OLD" })] }
      "outfit" "a.png" 5 (some "h2") "NEW").files
      "outfits/.cache/outfit_a.png.json" =
      some (some { key := "outfit_a.png", entryType := "outfit", timestamp := 5
                   filePath := "a.png", fileHash := "h2", data := "NEW" }) ∧
    fsRead
      [("outfits/.cache/outfit_a.png.json",
        some { key := "outfit_a.png", entryType := "outfit", timestamp := 0
               filePath := "a.png", fileHash := "h1", data := "OLD" })]
      "outfits/.cache/outfit_a.png.json" =
      some (some { key := "outfit_a.png", entryType := "outfit", timestamp := 0
                   filePath := "a.png", fileHash := "h1", data := "OLD" }) ∧
    ("NEW" : String) ≠ "OLD" := by
  refine ⟨by decide, by decide, by decide⟩

/-- C3 amended. Write-once holds for the basic `Cache.Set` only: when the
cache file exists (parseable or not) the call succeeds without touching the
filesystem, and on a missing file it writes the freshly-built entry.
`OptimizedCache.Set` performs no existence check: it unconditionally writes
the new entry over whatever the key's file held, so on that implementation
concurrent writers resolve last-writer-wins and manual edits do not survive
a later `Set`. -/
theorem cacheSet_write_once_amended :
    (∀ (fs : CacheFS) (c : CacheConfig) (ty p : String) (now : Int)
      (hash : Option String) (data : String) (v : Option CacheEntry),
      fsRead fs (cachePathOf c ty p) = some v →
      cacheSet fs c ty p now hash data = (fs, none)) ∧
    (∀ (fs : CacheFS) (c : CacheConfig) (ty p : String) (now : Int)
      (hash : Option String) (data : String),
      fsRead fs (cachePathOf c ty p) = none →
      cacheSet fs c ty p now hash data =
        (fsWrite fs (cachePathOf c ty p)
          (some { key := generateKey ty p, entryType := ty, timestamp := now
                  filePath := p, fileHash := hash.getD "", data := data }), none)) ∧
    (∀ (s : OptCacheState) (ty p : String) (now : Int) (hash : Option String)
      (data : String),
      fsRead (optSet s ty p now hash data).files
        (s.cacheDir ++ "/" ++ generateKey ty p ++ ".json") =
        some (some { key := generateKey ty p, entryType := ty, timestamp := now
                     filePath := p, fileHash := hash.getD "", data := data })) := by
  refine ⟨?_, ?_, ?_⟩
  · intro fs c ty p now hash data v hv
    simp [cacheSet, hv]
  · intro fs c ty p now hash data hv
    simp [cacheSet, hv]
  · intro s ty p now hash data
    unfold optSet
    exact fsRead_fsWrite_self _ _ _

/-- Closed instantiation of `cacheSet_write_once_amended`: a `Set` over an
existing (hand-edited, unparseable) cache file leaves the filesystem as it
was and reports success. -/
theorem cacheSet_write_once_amended_witness :
    cacheSet [("outfits/.cache/outfit_a.png.json", none)]
      { cacheDir := "outfits/.cache", ttl := 604800 } "outfit" "a.png"
      7 (some "h") "DATA" =
      ([("outfits/.cache/outfit_a.png.json", none)], none) :=
  cacheSet_write_once_amended.1
    [("outfits/.cache/outfit_a.png.json", none)]
    { cacheDir := "outfits/.cache", ttl := 604800 } "outfit" "a.png"
    7 (some "h") "DATA" none (by decide)

/-! ## C2 — image identity (getFileHash) -/

/-- C2. `Cache.getFileHash` behaves as claimed: a file of at most 10 MiB is
hashed over its byte stream (so byte-identical copies share the identity) and
a larger file over the decimal `size_<bytes>_mod_<mtime-unix>` string (so
equal size and mtime give equal identity) — for any digest function. But
`OptimizedCache.getFileHash` builds that string with `string(rune(n))`:
for the failing input — a file of 10 MiB + 1 bytes with mtime 1700000000 —
both conversions yield U+FFFD, so it hashes the constant `size_�_mod_�`
rather than the claimed `size_10485761_mod_1700000000`. -/
theorem getFileHash_identity_spec_and_rune_slip :
    (∀ (md5 : List Nat ⊕ String → String) (f : GoFile),
      f.size ≤ 10 * 1024 * 1024 →
      cacheGetFileHash md5 f = md5 (Sum.inl f.content)) ∧
    (∀ (md5 : List Nat ⊕ String → String) (f g : GoFile),
      f.size ≤ 10 * 1024 * 1024 → g.size ≤ 10 * 1024 * 1024 →
      f.content = g.content →
      cacheGetFileHash md5 f = cacheGetFileHash md5 g) ∧
    (∀ (md5 : List Nat ⊕ String → String) (f : GoFile),
      f.size > 10 * 1024 * 1024 →
      cacheGetFileHash md5 f =
        md5 (Sum.inr ("size_" ++ toString f.size ++ "_mod_" ++ toString f.mtimeUnix))) ∧
    (∀ (md5 : List Nat ⊕ String → String) (f g : GoFile),
      f.size > 10 * 1024 * 1024 → g.size > 10 * 1024 * 1024 →
      f.size = g.size → f.mtimeUnix = g.mtimeUnix →
      cacheGetFileHash md5 f = cacheGetFileHash md5 g ∧
      optimizedGetFileHash md5 f = optimizedGetFileHash md5 g) ∧
    (optimizedHashInput { size := 10485761, mtimeUnix := 1700000000, content := [] } =
       Sum.inr "size_�_mod_�" ∧
     cacheHashInput { size := 10485761, mtimeUnix := 1700000000, content := [] } =
       Sum.inr "size_10485761_mod_1700000000" ∧
     ("size_�_mod_�" : String) ≠ "size_10485761_mod_1700000000") := by
  refine ⟨?_, ?_, ?_, ?_, by decide, by decide, by decide⟩
  · intro md5 f h
    unfold cacheGetFileHash cacheHashInput
    rw [if_neg (by omega)]
  · intro md5 f g hf hg hc
    unfold cacheGetFileHash cacheHashInput
    rw [if_neg (by omega), if_neg (by omega), hc]
  · intro md5 f h
    unfold cacheGetFileHash cacheHashInput
    rw [if_pos (by omega)]
  · intro md5 f g hf hg hs hm
    constructor
    · unfold cacheGetFileHash cacheHashInput
      rw [if_pos (by omega), if_pos (by omega), hs, hm]
    · unfold optimizedGetFileHash optimizedHashInput
      rw [if_pos (by omega), if_pos (by omega), hs, hm]

/-- Closed instantiation of `getFileHash_identity_spec_and_rune_slip`: two
byte-identical 3-byte files share their identity under any digest, e.g. the
first-component projection. -/
theorem getFileHash_identity_spec_witness :
    cacheGetFileHash (fun i => match i with | Sum.inl l => toString l.length | Sum.inr s => s)
      { size := 3, mtimeUnix := 11, content := [1, 2, 3] } =
    cacheGetFileHash (fun i => match i with | Sum.inl l => toString l.length | Sum.inr s => s)
      { size := 3, mtimeUnix := 99, content := [1, 2, 3] } :=
  getFileHash_identity_spec_and_rune_slip.2.1
    (fun i => match i with | Sum.inl l => toString l.length | Sum.inr s => s)
    { size := 3, mtimeUnix := 11, content := [1, 2, 3] }
    { size := 3, mtimeUnix := 99, content := [1, 2, 3] }
    (by decide) (by decide) rfl

/-! ## C1 — cache Get freshness and identity policy -/

/-- C1 counterexample. `Cache.Get` serves a persisted entry whose TTL expired
long ago (timestamp 0, read at Unix time 10000000 with a 7-day TTL) and whose
stored identity "aaa" differs from the recomputed identity "bbb" — and it
removes nothing: the source checks neither freshness nor identity. -/
theorem cacheGet_ignores_ttl_and_identity_cex :
    cacheGet
      [("outfits/.cache/outfit_a.png.json",
        some { key := "outfit_a.png", entryType := "outfit", timestamp := 0
               filePath := "a.png", fileHash := "aaa", data := "DATA" })]
      { cacheDir := "outfits/.cache", ttl := 604800 } "outfit" "a.png" =
      some "DATA" ∧
    ¬ ((10000000 : Int) - 0 < 604800) ∧
    ("bbb" : String) ≠ "aaa" := by
  refine ⟨by decide, by decide, by decide⟩

/-- C1 amended. `Cache.Get` returns a hit for every persisted parseable entry,
regardless of TTL and identity, and never removes a file (the source keeps
manual edits). The claimed policy holds for `OptimizedCache.GetOutfitAnalysis`
instead: a hit requires `now - timestamp ≤ TTL` and, whenever the identity
recomputation succeeds, equality with the stored identity; an expired entry is
evicted (index entry dropped, file removed) and missed, and so is an entry
whose recomputed identity mismatches. -/
theorem cacheGet_policy_amended :
    (∀ (fs : CacheFS) (c : CacheConfig) (ty p : String) (e : CacheEntry),
      fsRead fs (cachePathOf c ty p) = some (some e) →
      cacheGet fs c ty p = some e.data) ∧
    (∀ (s : OptCacheState) (fp : String) (now : Int) (curHash : Option String)
      (parse : String → Bool) (d : String) (s' : OptCacheState),
      optGetOutfitAnalysis s fp now curHash parse = (some d, s') →
      ∃ ie, idxRead s.index (generateKey "outfit" fp) = some ie ∧
        now - ie.timestamp ≤ s.ttl ∧
        (∀ h, curHash = some h → h = ie.fileHash) ∧
        s' = s) ∧
    (∀ (s : OptCacheState) (fp : String) (now : Int) (curHash : Option String)
      (parse : String → Bool) (ie : IndexEntry),
      idxRead s.index (generateKey "outfit" fp) = some ie →
      now - ie.timestamp > s.ttl →
      optGetOutfitAnalysis s fp now curHash parse =
        (none, optEvict s (generateKey "outfit" fp))) ∧
    (∀ (s : OptCacheState) (fp : String) (now : Int) (h : String)
      (parse : String → Bool) (ie : IndexEntry) (entry : CacheEntry),
      idxRead s.index (generateKey "outfit" fp) = some ie →
      now - ie.timestamp ≤ s.ttl →
      fsRead s.files (s.cacheDir ++ "/" ++ generateKey "outfit" fp ++ ".json") =
        some (some entry) →
      h ≠ ie.fileHash →
      optGetOutfitAnalysis s fp now (some h) parse =
        (none, optEvict s (generateKey "outfit" fp))) := by
  refine ⟨?_, ?_, ?_, ?_⟩
  · intro fs c ty p e he
    unfold cacheGet
    rw [he]
  · intro s fp now curHash parse d s' hres
    unfold optGetOutfitAnalysis at hres
    rcases hidx : idxRead s.index (generateKey "outfit" fp) with _ | ie
    · rw [hidx] at hres
      simp at hres
    · rw [hidx] at hres
      dsimp only at hres
      by_cases httl : now - ie.timestamp > s.ttl
      · rw [if_pos httl] at hres
        simp at hres
      · rw [if_neg httl] at hres
        rcases hfile : fsRead s.files
            (s.cacheDir ++ "/" ++ generateKey "outfit" fp ++ ".json") with _ | entOpt
        · rw [hfile] at hres
          simp at hres
        · rcases entOpt with _ | entry
          · rw [hfile] at hres
            simp at hres
          · rw [hfile] at hres
            dsimp only at hres
            rcases curHash with _ | h
            · dsimp only at hres
              by_cases hp : parse entry.data
              · rw [if_pos hp] at hres
                have heq := Prod.ext_iff.mp hres
                refine ⟨ie, rfl, by omega, ?_, heq.2.symm⟩
                intro h' hc
                cases hc
              · rw [if_neg hp] at hres
                simp at hres
            · dsimp only at hres
              by_cases hne : h ≠ ie.fileHash
              · rw [if_pos hne] at hres
                simp at hres
              · rw [if_neg hne] at hres
                push_neg at hne
                by_cases hp : parse entry.data
                · rw [if_pos hp] at hres
                  have heq := Prod.ext_iff.mp hres
                  refine ⟨ie, rfl, by omega, ?_, heq.2.symm⟩
                  intro h' hc
                  injection hc with hc
                  rw [← hc]
                  exact hne
                · rw [if_neg hp] at hres
                  simp at hres
  · intro s fp now curHash parse ie hidx hexp
    unfold optGetOutfitAnalysis
    rw [hidx]
    dsimp only
    rw [if_pos hexp]
  · intro s fp now h parse ie entry hidx hfresh hfile hne
    unfold optGetOutfitAnalysis
    rw [hidx]
    dsimp only
    rw [if_neg (by omega), hfile]
    dsimp only
    rw [if_pos hne]

/-- Closed instantiation of `cacheGet_policy_amended`: a parseable entry is a
`Cache.Get` hit, and an expired entry makes `OptimizedCache.GetOutfitAnalysis`
evict and miss. -/
theorem cacheGet_policy_amended_witness :
    cacheGet
      [("outfits/.cache/outfit_b.png.json",
        some { key := "outfit_b.png", entryType := "outfit", timestamp := 3
               filePath := "b.png", fileHash := "h", data := "D" })]
      { cacheDir := "outfits/.cache", ttl := 604800 } "outfit" "b.png" =
      some "D" ∧
    optGetOutfitAnalysis
      { cacheDir := "outfits/.cache", ttl := 604800
        index := [("outfit_b.png",
          { key := "outfit_b.png", entryType := "outfit", timestamp := 0
            filePath := "b.png", fileHash := "h" })]
        files := [] }
      "b.png" 10000000 none (fun _ => true) =
      (none, optEvict
        { cacheDir := "outfits/.cache", ttl := 604800
          index := [("outfit_b.png",
            { key := "outfit_b.png", entryType := "outfit", timestamp := 0
              filePath := "b.png", fileHash := "h" })]
          files := [] }
        (generateKey "outfit" "b.png")) := by
  constructor
  · exact cacheGet_policy_amended.1
      [("outfits/.cache/outfit_b.png.json",
        some { key := "outfit_b.png", entryType := "outfit", timestamp := 3
               filePath := "b.png", fileHash := "h", data := "D" })]
      { cacheDir := "outfits/.cache", ttl := 604800 } "outfit" "b.png"
      { key := "outfit_b.png", entryType := "outfit", timestamp := 3
        filePath := "b.png", fileHash := "h", data := "D" }
      (by decide)
  · exact cacheGet_policy_amended.2.2.1
      { cacheDir := "outfits/.cache", ttl := 604800
        index := [("outfit_b.png",
          { key := "outfit_b.png", entryType := "outfit", timestamp := 0
            filePath := "b.png", fileHash := "h" })]
        files := [] }
      "b.png" 10000000 none (fun _ => true)
      { key := "outfit_b.png", entryType := "outfit", timestamp := 0
        filePath := "b.png", fileHash := "h" }
      (by decide) (by decide)

/-! ## C4 — sweep plan count and enumeration order -/

/-- C4. The number of generation entries the nested loops produce equals
`totalImages` — `|subjects| · ∏ max(1,|R_k|) · V`, the count the pre-flight
cost estimate is computed from — and the entries are enumerated exactly in
the specification's order: subjects outermost, then outfit, over-outfit,
style, hair-style, hair-color, makeup, expression, accessories, with the
variation index innermost. -/
theorem sweepPlan_count_matches_estimate :
    (∀ c : SweepLists, 0 ≤ c.variations →
      ((sweepPlan c).length : Int) = totalImages c) ∧
    (∀ c : SweepLists, sweepPlan c = specOrderedEnumeration c) := by
  constructor
  · intro c hv
    have hnat : (sweepPlan c).length =
        c.targetImages.length *
        ((ensureAtLeastOne c.outfitFiles).length *
         ((ensureAtLeastOne c.overOutfitFiles).length *
          ((ensureAtLeastOne c.styleFiles).length *
           ((ensureAtLeastOne c.hairStyleFiles).length *
            ((ensureAtLeastOne c.hairColorFiles).length *
             ((ensureAtLeastOne c.makeupFiles).length *
              ((ensureAtLeastOne c.expressionFiles).length *
               ((ensureAtLeastOne c.accessoriesFiles).length *
                c.variations.toNat)))))))) := by
      unfold sweepPlan
      refine length_flatMap_const _ _ _ (fun subject => ?_)
      refine length_flatMap_const _ _ _ (fun outfit => ?_)
      refine length_flatMap_const _ _ _ (fun overOutfit => ?_)
      refine length_flatMap_const _ _ _ (fun style => ?_)
      refine length_flatMap_const _ _ _ (fun hairStyle => ?_)
      refine length_flatMap_const _ _ _ (fun hairColor => ?_)
      refine length_flatMap_const _ _ _ (fun makeup => ?_)
      refine length_flatMap_const _ _ _ (fun expression => ?_)
      refine length_flatMap_const _ _ _ (fun accessories => ?_)
      simp
    rw [hnat]
    push_cast
    rw [ensureAtLeastOne_length, ensureAtLeastOne_length, ensureAtLeastOne_length,
      ensureAtLeastOne_length, ensureAtLeastOne_length, ensureAtLeastOne_length,
      ensureAtLeastOne_length, ensureAtLeastOne_length, Int.toNat_of_nonneg hv]
    unfold totalImages
    ring
  · intro c
    rfl

/-- Closed instantiation of `sweepPlan_count_matches_estimate`: two subjects,
one outfit, two variations and no other slots plan `2·1·2 = 4` entries. -/
theorem sweepPlan_count_matches_estimate_witness :
    ((sweepPlan
      { targetImages := ["s1.png", "s2.png"]
        outfitFiles := ["o.png"]
        overOutfitFiles := []
        styleFiles := []
        hairStyleFiles := []
        hairColorFiles := []
        makeupFiles := []
        expressionFiles := []
        accessoriesFiles := []
        variations := 2 }).length : Int) =
    totalImages
      { targetImages := ["s1.png", "s2.png"]
        outfitFiles := ["o.png"]
        overOutfitFiles := []
        styleFiles := []
        hairStyleFiles := []
        hairColorFiles := []
        makeupFiles := []
        expressionFiles := []
        accessoriesFiles := []
        variations := 2 } :=
  sweepPlan_count_matches_estimate.1
    { targetImages := ["s1.png", "s2.png"]
      outfitFiles := ["o.png"]
      overOutfitFiles := []
      styleFiles := []
      hairStyleFiles := []
      hairColorFiles := []
      makeupFiles := []
      expressionFiles := []
      accessoriesFiles := []
      variations := 2 }
    (by decide)

/-! ## C9 — technical-requirements block -/

/-- C9 counterexample. With a style set (which the claim says overrides the
framing), the technical-requirements block still contains the
"Professional 9:16 vertical portrait format" requirement: the source appends
it unconditionally, so "9:16 only when no style overrides the framing" is
false. -/
theorem portrait_916_with_style_cex :
    "- Professional 9:16 vertical portrait format" ∈
      techSection { emptyComponents with
        style := some { dataType := "visual_style"
                        description := "Lighting: soft window light" } } ∧
    ({ emptyComponents with
        style := some { dataType := "visual_style"
                        description := "Lighting: soft window light" } } :
      ModularComponents).style ≠ none := by
  refine ⟨by decide, by decide⟩

/-- C9 amended. The technical-requirements block always opens with its header
followed by one of the three identity-preservation variants (POV, style-driven,
or default); the makeup cosmetic-only reminder appears exactly when makeup is
set; the hair-color-preservation reminder appears exactly when hair-style is
set without hair-color; and — amended — the 9:16 portrait requirement appears
unconditionally, whether or not a style overrides the framing. The block is a
suffix of the full composed directive. -/
theorem tech_requirements_block_amended (m : ModularComponents) :
    (techSection m).take 1 = ["TECHNICAL REQUIREMENTS:"] ∧
    ((if isPOVStyle m then techPovIdentityLines
      else if m.style.isSome then techStyleIdentityLines
      else techDefaultIdentityLines) <:+: techSection m) ∧
    (makeupPreserveLine ∈ techSection m ↔ m.makeup.isSome = true) ∧
    (hairColorPreserveLines.headD "" ∈ techSection m ↔
      (m.hairStyle.isSome = true ∧ m.hairColor.isNone = true)) ∧
    "- Professional 9:16 vertical portrait format" ∈ techSection m ∧
    techSection m <:+ buildModularPromptParts m := by
  refine ⟨?_, ?_, ?_, ?_, ?_, ?_⟩
  · rfl
  · exact ⟨["TECHNICAL REQUIREMENTS:"],
      (if m.makeup.isSome then [makeupPreserveLine] else []) ++
      (if m.hairStyle.isSome ∧ m.hairColor.isNone then hairColorPreserveLines else []) ++
      techTailLines ++
      (if m.makeup.isSome then facialPreservationLines else []),
      by simp [techSection, List.append_assoc]⟩
  · rcases hpov : isPOVStyle m <;> rcases hsty : m.style with _ | st <;>
      rcases hmk : m.makeup with _ | mk <;> rcases hhs : m.hairStyle with _ | hs <;>
      rcases hhc : m.hairColor with _ | hc <;>
      simp only [techSection, hpov, hsty, hmk, hhs, hhc, Option.isSome_none,
        Option.isSome_some, Option.isNone_none, Option.isNone_some, Bool.false_eq_true,
        if_true, if_false, and_self, and_false, false_and, true_and, and_true,
        Bool.true_and, Bool.and_false] <;> decide
  · rcases hpov : isPOVStyle m <;> rcases hsty : m.style with _ | st <;>
      rcases hmk : m.makeup with _ | mk <;> rcases hhs : m.hairStyle with _ | hs <;>
      rcases hhc : m.hairColor with _ | hc <;>
      simp only [techSection, hpov, hsty, hmk, hhs, hhc, Option.isSome_none,
        Option.isSome_some, Option.isNone_none, Option.isNone_some, Bool.false_eq_true,
        if_true, if_false, and_self, and_false, false_and, true_and, and_true,
        Bool.true_and, Bool.and_false] <;> decide
  · rcases hpov : isPOVStyle m <;> rcases hsty : m.style with _ | st <;>
      rcases hmk : m.makeup with _ | mk <;> rcases hhs : m.hairStyle with _ | hs <;>
      rcases hhc : m.hairColor with _ | hc <;>
      simp only [techSection, hpov, hsty, hmk, hhs, hhc, Option.isSome_none,
        Option.isSome_some, Option.isNone_none, Option.isNone_some, Bool.false_eq_true,
        if_true, if_false, and_self, and_false, false_and, true_and, and_true,
        Bool.true_and, Bool.and_false] <;> decide
  · exact ⟨identityPreambleParts ++ framingSection m ++ outfitSection m ++
      hairStyleSection m ++ hairColorSection m ++ makeupSection m ++
      expressionSection m ++ accessoriesSection m ++ styleSection m,
      by simp [buildModularPromptParts, List.append_assoc]⟩

/-! ## C6 — layered outfit composition -/

/-- C6. When both Outfit and OverOutfit are set and the outfit's outer-layer
extraction is non-empty, the directive's outfit block labels the OverOutfit
description as the complete base outfit and the extracted Outfit description
as the outer layer worn over it; when the extraction is empty the Outfit slot
is dropped and the OverOutfit description becomes the block's sole outfit
description. The block appears verbatim inside the composed directive. -/
theorem layered_outfit_directive (outerLayerDesc overDesc : String)
    (m : ModularComponents)
    (ho : m.outfit = composeOutfitSlot outerLayerDesc)
    (hov : m.overOutfit = some { dataType := "over_outfit", description := overDesc }) :
    (outerLayerDesc ≠ "" →
      outfitSection m =
        ["LAYERED OUTFIT:", "",
         "COMPLETE BASE OUTFIT (all clothing worn underneath):", overDesc, "",
         "OUTER LAYER ONLY (jacket/coat worn over the base outfit):",
         outerLayerDesc, "", layeredImportantLine, ""]) ∧
    (outerLayerDesc = "" → outfitSection m = ["OUTFIT:", overDesc, ""]) ∧
    outfitSection m <:+: buildModularPromptParts m := by
  refine ⟨?_, ?_, ?_⟩
  · intro hne
    unfold outfitSection
    rw [ho, hov]
    simp [composeOutfitSlot, hne]
  · intro heq
    subst heq
    unfold outfitSection
    rw [ho, hov]
    simp [composeOutfitSlot]
  · exact ⟨identityPreambleParts ++ framingSection m,
      hairStyleSection m ++ hairColorSection m ++ makeupSection m ++
      expressionSection m ++ accessoriesSection m ++ styleSection m ++ techSection m,
      by simp [buildModularPromptParts, List.append_assoc]⟩

/-- Closed instantiation of `layered_outfit_directive`: a non-empty extracted
jacket over a dress yields the two labelled roles. -/
theorem layered_outfit_directive_witness :
    outfitSection { emptyComponents with
      outfit := composeOutfitSlot "black leather jacket"
      overOutfit := some { dataType := "over_outfit", description := "red dress" } } =
      ["LAYERED OUTFIT:", "",
       "COMPLETE BASE OUTFIT (all clothing worn underneath):", "red dress", "",
       "OUTER LAYER ONLY (jacket/coat worn over the base outfit):",
       "black leather jacket", "", layeredImportantLine, ""] :=
  (layered_outfit_directive "black leather jacket" "red dress"
    { emptyComponents with
      outfit := composeOutfitSlot "black leather jacket"
      overOutfit := some { dataType := "over_outfit", description := "red dress" } }
    rfl rfl).1 (by decide)

/-! ## C7 — POV style precedence over expression gaze -/

theorem notGaze_of_labelledPart (L : String) (v : Option String)
    (hlen : ("Gaze:".toList).length ≤ L.toList.length)
    (hL : isPrefixCL "Gaze:".toList L.toList = false) :
    ∀ p ∈ labelledPart L v, isPrefixCL "Gaze:".toList p.toList = false := by
  intro p hp
  rcases v with _ | s
  · simp [labelledPart] at hp
  · by_cases hs : s = ""
    · simp [labelledPart, hs] at hp
    · simp [labelledPart, hs] at hp
      subst hp
      rw [toList_append, isPrefixCL_append_of_le _ _ _ hlen]
      exact hL

/-- C7. With a Style whose description carries a POV marker and an Expression
whose analysis has gaze direction "at camera": the directive's framing block
is the POV variant; the expression description placed in the directive is the
gaze-excluded extraction (the style reference forces `excludeGaze`); that
extraction is independent of the gaze field entirely; and — provided the
fixed phrase scrub leaves the free-text `overall` without a leading gaze
sentence — no sentence of the extraction is a gaze sentence
(`"Gaze: <direction>"`). -/
theorem pov_style_overrides_gaze (m : ModularComponents) (st : ComponentData)
    (a : ExprAnalysis)
    (hsty : m.style = some st)
    (hpov : isPOVStyle m = true)
    (hgaze : a.gaze = some { direction := some "at camera" })
    (hexp : m.expression = some (expressionComponentOf a true))
    (hov : ∀ s, a.overall = some s →
      isPrefixCL "Gaze:".toList (stripGazePhrases s).toList = false) :
    framingSection m = povFramingLines ++ [""] ∧
    expressionSection m =
      [expressionHeaderLine, extractExpressionDescription a true,
       expressionStyleNoteLine, ""] ∧
    extractExpressionParts a true =
      extractExpressionParts { a with gaze := none } true ∧
    (∀ p ∈ extractExpressionParts a true,
      isPrefixCL "Gaze:".toList p.toList = false) := by
  refine ⟨?_, ?_, rfl, ?_⟩
  · simp [framingSection, hpov]
  · simp [expressionSection, hexp, hsty, expressionComponentOf]
  · obtain ⟨pe, pi, pf, pg, pmood, pov⟩ := a
    intro p hp
    unfold extractExpressionParts at hp
    simp only [List.mem_append, List.append_assoc] at hp
    rcases hp with hp | hp | hp | hp | hp | hp
    · exact notGaze_of_labelledPart "Primary emotion: " pe (by decide) (by decide) p hp
    · exact notGaze_of_labelledPart "Intensity: " pi (by decide) (by decide) p hp
    · rcases pf with _ | f
      · simp at hp
      · simp only [List.mem_append] at hp
        rcases hp with hp | hp
        · exact notGaze_of_labelledPart "Eyes: " f.eyes (by decide) (by decide) p hp
        · exact notGaze_of_labelledPart "Mouth: " f.mouth (by decide) (by decide) p hp
    · simp at hp
    · exact notGaze_of_labelledPart "Mood: " pmood (by decide) (by decide) p hp
    · rcases pov with _ | s
      · simp at hp
      · by_cases hs : s = ""
        · simp [hs] at hp
        · simp [hs] at hp
          subst hp
          exact hov s rfl

/-- Closed instantiation of `pov_style_overrides_gaze` at a POV mirror-selfie
style and an "at camera" expression analysis. -/
theorem pov_style_overrides_gaze_witness :
    framingSection { emptyComponents with
      style := some { dataType := "visual_style"
                      description := "First-person POV shot into a mirror" }
      expression := some (expressionComponentOf
        { primaryEmotion := some "joy", intensity := some "high"
          facialFeatures := some { eyes := some "bright", mouth := some "smiling" }
          gaze := some { direction := some "at camera" }
          mood := some "playful"
          overall := some "A joyful look, gazing directly at the camera" } true) } =
      povFramingLines ++ [""] :=
  (pov_style_overrides_gaze
    { emptyComponents with
      style := some { dataType := "visual_style"
                      description := "First-person POV shot into a mirror" }
      expression := some (expressionComponentOf
        { primaryEmotion := some "joy", intensity := some "high"
          facialFeatures := some { eyes := some "bright", mouth := some "smiling" }
          gaze := some { direction := some "at camera" }
          mood := some "playful"
          overall := some "A joyful look, gazing directly at the camera" } true) }
    { dataType := "visual_style"
      description := "First-person POV shot into a mirror" }
    { primaryEmotion := some "joy", intensity := some "high"
      facialFeatures := some { eyes := some "bright", mouth := some "smiling" }
      gaze := some { direction := some "at camera" }
      mood := some "playful"
      overall := some "A joyful look, gazing directly at the camera" }
    rfl (by decide) rfl rfl
    (by intro s hs; injection hs with hs; subst hs; decide)).1
